import Mathlib

/-!
Verification of the notification dispatch and device-registration lifecycle
subsystem of the cloud-functions repository (`src/functions/src/index.ts`).

The embedding models the three exported Cloud Functions:

* `createNotificationOnNewLike` / `createNotificationOnNewComment`
  (event producers): only the actor-name derivation and the `args` array
  they store are modelled, since the claims concern those.
* `sendPushOnNewNotification` (the dispatcher): modelled as a pure
  function `dispatch` from the loaded token documents, the notification
  record, and the environment's responses (the multicast transport outcome
  and whether the Firestore batch commit succeeds) to the observable
  outcome: counts, the single multicast message built, the tokens queued
  for deletion, the final token store, and whether any exception escapes
  to the caller.

TypeScript optional / possibly-undefined values are `Option`; the
`??` operator is `Option.getD`.
-/

set_option autoImplicit false

namespace CloudFunctions

/-- The `Notification` interface of `index.ts` (fields `type`, `args?`,
`targetRoute?`, `targetId?`), together with the `status` field that the
producers write into the stored document (`"NEW"` at creation).  At runtime
`snap.data() as Notification` performs no checks, so every field may be
absent; `type` is `Option String` accordingly. -/
structure Notification where
  type : Option String
  args : Option (List String)
  targetRoute : Option String
  targetId : Option String
  status : String
  deriving Repr, DecidableEq

/-- One document of the `users/{userId}/deviceTokens` collection: its
Firestore document id and its `token` field. -/
structure TokenDoc where
  docId : String
  token : String
  deriving Repr, DecidableEq

/-- One element of `response.responses` from `sendEachForMulticast`:
`success`, and `res.error.code` when a failure carries an error object
(`errorCode = none` models `res.error` being absent). -/
structure SendResponse where
  success : Bool
  errorCode : Option String
  deriving Repr, DecidableEq

/-- The multicast message built at lines 190-199 of `index.ts`:
the display pair produced by `buildTitle` / `buildBody`, the flat
string-to-string `data` payload, and the token list. -/
structure MulticastMessage where
  title : String
  body : String
  data : List (String × String)
  tokens : List String
  deriving Repr, DecidableEq

/-- `buildTitle` (lines 261-270).  The `switch` is on `notification.type`,
which at runtime may be `undefined` and then falls to the `default` case;
`notification.args?.[0] ?? "Alguien"` is the optional chain with fallback. -/
def buildTitle (n : Notification) : String :=
  match n.type with
  | some "LIKE" =>
      ((n.args.bind fun a => a.get? 0).getD "Alguien") ++
        " le dio like a tu publicación"
  | some "COMMENT" =>
      ((n.args.bind fun a => a.get? 0).getD "Alguien") ++
        " comentó en tu publicación"
  | _ => "Tienes una nueva notificación"

/-- `buildBody` (lines 272-281). -/
def buildBody (n : Notification) : String :=
  match n.type with
  | some "LIKE" => "Publicación: " ++ ((n.args.bind fun a => a.get? 1).getD "")
  | some "COMMENT" => (n.args.bind fun a => a.get? 1).getD ""
  | _ => ""

/-- The `data` field of the multicast message (lines 192-197), in source
order: `targetRoute`, `targetId`, `type` (each defaulted to `""` by `??`)
and `notificationId` (the created document's id). -/
def dataPayload (n : Notification) (notificationId : String) :
    List (String × String) :=
  [("targetRoute", n.targetRoute.getD ""),
   ("targetId", n.targetId.getD ""),
   ("type", n.type.getD ""),
   ("notificationId", notificationId)]

/-- The permanent-error test of lines 221-224: the error code is compared
against the two literal strings of the source. -/
def isPermanentTokenError (c : String) : Bool :=
  c == "messaging/invalid-registration-token" ||
    c == "messaging/registration-token-not-registered"

/-- The `tokensToDelete` accumulation of lines 215-229: for each positional
response that is a failure, carries an error object, and whose code is one
of the two permanent codes, the token at the same index is queued for
deletion.  The transport returns one response per input token in the same
order (one `tokens[idx]` per `responses[idx]`), which the positional `zip`
captures. -/
def tokensToDelete (tokens : List String) (responses : List SendResponse) :
    List String :=
  (tokens.zip responses).filterMap fun tr =>
    if tr.2.success = false then
      match tr.2.errorCode with
      | some c => if isPermanentTokenError c then some tr.1 else none
      | none => none
    else none

/-- Observable outcome of one invocation of `sendPushOnNewNotification`
(after the token load): the early-return flag for an empty token set, how
many transport sends and batch commits were issued, the success / failure
counts computed at lines 206-207, the queued deletions, the message handed
to the transport, the notification record as the function leaves it, the
final `deviceTokens` store, and whether an exception escapes to the
caller. -/
structure DispatchOutcome where
  skipped : Bool
  sendCalls : Nat
  deleteCalls : Nat
  successCount : Nat
  failureCount : Nat
  tokensToDelete : List String
  message : Option MulticastMessage
  record : Notification
  store : List TokenDoc
  callerFailure : Bool
  deriving Repr, DecidableEq

/-- `sendPushOnNewNotification` (lines 150-256), from the point where the
`deviceTokens` query has returned `docs`.  The environment is summarised by
`sendOutcome` (`none` models `sendEachForMulticast` rejecting, `some rs`
its per-token responses) and `commitOk` (whether `batch.commit()`
succeeds; a Firestore batch is atomic, so a failed commit leaves the store
unchanged).  The whole send-and-prune block sits inside one
`try { ... } catch { logger.error(...) }`, so no failure of the send or of
the commit ever escapes to the caller: `callerFailure` is `false` on every
path. -/
def dispatch (docs : List TokenDoc) (n : Notification)
    (notificationId : String) (sendOutcome : Option (List SendResponse))
    (commitOk : Bool) : DispatchOutcome :=
  if docs.isEmpty then
    { skipped := true, sendCalls := 0, deleteCalls := 0, successCount := 0,
      failureCount := 0, tokensToDelete := [], message := none, record := n,
      store := docs, callerFailure := false }
  else
    let tokens := docs.map TokenDoc.token
    let msg : MulticastMessage :=
      { title := buildTitle n, body := buildBody n,
        data := dataPayload n notificationId, tokens := tokens }
    match sendOutcome with
    | none =>
        { skipped := false, sendCalls := 1, deleteCalls := 0,
          successCount := 0, failureCount := 0, tokensToDelete := [],
          message := some msg, record := n, store := docs,
          callerFailure := false }
    | some responses =>
        let toDelete := tokensToDelete tokens responses
        let succ := (responses.filter fun r => r.success).length
        let fail := (responses.filter fun r => !r.success).length
        if toDelete.isEmpty then
          { skipped := false, sendCalls := 1, deleteCalls := 0,
            successCount := succ, failureCount := fail,
            tokensToDelete := toDelete, message := some msg, record := n,
            store := docs, callerFailure := false }
        else if commitOk then
          { skipped := false, sendCalls := 1, deleteCalls := 1,
            successCount := succ, failureCount := fail,
            tokensToDelete := toDelete, message := some msg, record := n,
            store := docs.filter fun d => !(toDelete.contains d.token),
            callerFailure := false }
        else
          { skipped := false, sendCalls := 1, deleteCalls := 1,
            successCount := succ, failureCount := fail,
            tokensToDelete := toDelete, message := some msg, record := n,
            store := docs, callerFailure := false }

/-- The spec's `transientFailures` observable: per-token failures that were
not classified permanent.  The source logs only the total `failureCount`;
the transient count is that total minus the pruned ones. -/
def transientFailures (o : DispatchOutcome) : Nat :=
  o.failureCount - o.tokensToDelete.length

/-- A `users/{uid}` document as read by `createNotificationOnNewLike`; the
claims only concern its `fullName` field, which may be absent. -/
structure UserDoc where
  fullName : Option String
  deriving Repr, DecidableEq

/-- Line 67: `likerDoc.exists ? likerDoc.data()!.fullName : "Alguien"`.
`none` for `likerDoc` models a non-existent document; when the document
exists the value is its `fullName` field, itself possibly `undefined`. -/
def likerNameOf (likerDoc : Option UserDoc) : Option String :=
  match likerDoc with
  | some d => d.fullName
  | none => some "Alguien"

/-- The `args` array stored by the LIKE producer (line 78):
`[likerName, blogTitle]` with `blogTitle = blogData.title ?? "tu publicación"`
(line 64).  Elements are `Option String` because `likerName` can be the
undefined value. -/
def createLikeArgs (likerDoc : Option UserDoc) (blogTitle : Option String) :
    List (Option String) :=
  [likerNameOf likerDoc, some (blogTitle.getD "tu publicación")]

/-- Line 127: `comment.author.fullName ?? "Alguien"`. -/
def commenterNameOf (fullName : Option String) : String :=
  fullName.getD "Alguien"

/-- The `args` array stored by the COMMENT producer (line 136):
`[commenterName, commentText]` with `commentText = comment.text ?? ""`
(line 109). -/
def createCommentArgs (fullName : Option String) (text : Option String) :
    List (Option String) :=
  [some (commenterNameOf fullName), some (text.getD "")]

/-- The Scenario A record: `{type:"LIKE", args:["Ana","My Post"],
targetId:"b1"}`, status `NEW` as written by the producers. -/
def recA : Notification :=
  { type := some "LIKE", args := some ["Ana", "My Post"],
    targetRoute := none, targetId := some "b1", status := "NEW" }

/-- The Scenario A token store: user has tokens `["tA","tB"]`. -/
def docsAB : List TokenDoc :=
  [{ docId := "d1", token := "tA" }, { docId := "d2", token := "tB" }]

/-- Scenario A responses with the error code exactly as the spec writes it:
`tA` success, `tB` failure with code `registration-token-not-registered`. -/
def rsA_unprefixed : List SendResponse :=
  [{ success := true, errorCode := none },
   { success := false,
     errorCode := some "registration-token-not-registered" }]

/-- Scenario A responses with the error code as the source compares it,
carrying the `messaging/` prefix of the admin SDK. -/
def rsA_prefixed : List SendResponse :=
  [{ success := true, errorCode := none },
   { success := false,
     errorCode := some "messaging/registration-token-not-registered" }]

/-- A notification record whose `type` field is absent. -/
def recNoType : Notification :=
  { type := none, args := some ["Ana", "My Post"],
    targetRoute := none, targetId := some "b1", status := "NEW" }

/-- C1 counterexample: with the error code exactly as the claim states it,
`registration-token-not-registered` without the `messaging/` prefix, the
comparison at lines 222-224 does not match, so nothing is pruned: the
result has `pruned = 0`, `transientFailures = 1`, and the store keeps both
tokens, contradicting the claimed `pruned = 1` and store `["tA"]`. -/
theorem scenarioA_unprefixed_code_not_pruned :
    (dispatch docsAB recA "n1" (some rsA_unprefixed) true).tokensToDelete.length = 0 ∧
    transientFailures (dispatch docsAB recA "n1" (some rsA_unprefixed) true) = 1 ∧
    (dispatch docsAB recA "n1" (some rsA_unprefixed) true).store.map TokenDoc.token
      = ["tA", "tB"] ∧
    ¬ ((dispatch docsAB recA "n1" (some rsA_unprefixed) true).tokensToDelete.length = 1 ∧
       (dispatch docsAB recA "n1" (some rsA_unprefixed) true).store.map TokenDoc.token
         = ["tA"]) := by
  decide

/-- C1 amended: same scenario with the error code the source actually
matches, `messaging/registration-token-not-registered`: the dispatch
reports one success, zero transient failures, one pruned token, and the
store afterwards holds exactly `["tA"]`. -/
theorem scenarioA_prefixed_code_prunes :
    (dispatch docsAB recA "n1" (some rsA_prefixed) true).successCount = 1 ∧
    transientFailures (dispatch docsAB recA "n1" (some rsA_prefixed) true) = 0 ∧
    (dispatch docsAB recA "n1" (some rsA_prefixed) true).tokensToDelete.length = 1 ∧
    (dispatch docsAB recA "n1" (some rsA_prefixed) true).store.map TokenDoc.token
      = ["tA"] := by
  decide

/-- C2 counterexample: for a record with no `type` field the payload's
`type` entry is the empty string, not `"UNKNOWN"` (line 195:
`notification.type ?? ""`). -/
theorem payload_type_absent_is_empty_string :
    (dataPayload recNoType "n1").lookup "type" = some "" ∧
    (dataPayload recNoType "n1").lookup "type" ≠ some "UNKNOWN" := by
  decide

/-- C2 amended: the payload always contains the key `type`, set to the
record's type when present and to the empty string `""` when absent; the
key is never omitted. -/
theorem payload_type_key_defaults_empty (n : Notification)
    (notificationId : String) :
    (dataPayload n notificationId).lookup "type" = some (n.type.getD "") := by
  rfl

/-- C3 counterexample: for the Scenario A record, whose `args` is
`["Ana","My Post"]`, the data payload holds no `arg0` key at all — the
args are not copied into the payload. -/
theorem payload_has_no_arg0_key :
    recA.args = some ["Ana", "My Post"] ∧
    (dataPayload recA "n1").lookup "arg0" = none ∧
    (dataPayload recA "n1").lookup "arg1" = none := by
  decide

/-- C3 amended: the data payload of every record consists of exactly the
four keys `targetRoute`, `targetId`, `type`, `notificationId`; it carries
no per-element `arg{i}` key and no `args` key — the args reach the device
only through the human-readable `title`/`body` built by `buildTitle` and
`buildBody`. -/
theorem payload_keys_fixed_no_arg_keys (n : Notification)
    (notificationId : String) :
    (dataPayload n notificationId).map Prod.fst
      = ["targetRoute", "targetId", "type", "notificationId"] ∧
    (dataPayload n notificationId).lookup "arg0" = none ∧
    (dataPayload n notificationId).lookup "arg1" = none ∧
    (dataPayload n notificationId).lookup "args" = none := by
  exact ⟨rfl, rfl, rfl, rfl⟩

/-- C6: for a user with zero device registrations the dispatch performs no
transport call and no delete call, reports zero sent, and is marked
skipped (lines 177-180 return before any message is built). -/
theorem empty_token_set_short_circuit (n : Notification)
    (notificationId : String) (sendOutcome : Option (List SendResponse))
    (commitOk : Bool) :
    (dispatch [] n notificationId sendOutcome commitOk).skipped = true ∧
    (dispatch [] n notificationId sendOutcome commitOk).sendCalls = 0 ∧
    (dispatch [] n notificationId sendOutcome commitOk).deleteCalls = 0 ∧
    (dispatch [] n notificationId sendOutcome commitOk).successCount = 0 ∧
    (dispatch [] n notificationId sendOutcome commitOk).message = none := by
  exact ⟨rfl, rfl, rfl, rfl, rfl⟩

/-- Helper: in a `zip` whose first components are nodup, a first component
determines its partner. -/
lemma snd_eq_of_mem_zip_of_nodup {α β : Type} {l₁ : List α} {l₂ : List β}
    (h : l₁.Nodup) {a : α} {b₁ b₂ : β}
    (h₁ : (a, b₁) ∈ l₁.zip l₂) (h₂ : (a, b₂) ∈ l₁.zip l₂) : b₁ = b₂ := by
  induction l₁ generalizing l₂ with
  | nil => simp at h₁
  | cons x xs ih =>
    cases l₂ with
    | nil => simp at h₁
    | cons y ys =>
      rw [List.zip_cons_cons, List.mem_cons] at h₁ h₂
      rcases h₁ with h₁ | h₁ <;> rcases h₂ with h₂ | h₂
      · rw [Prod.mk.injEq] at h₁ h₂
        rw [h₁.2, h₂.2]
      · exfalso
        rw [Prod.mk.injEq] at h₁
        exact (List.nodup_cons.mp h).1 (h₁.1 ▸ (List.of_mem_zip h₂).1)
      · exfalso
        rw [Prod.mk.injEq] at h₂
        exact (List.nodup_cons.mp h).1 (h₂.1 ▸ (List.of_mem_zip h₁).1)
      · exact ih (List.nodup_cons.mp h).2 h₁ h₂

/-- Helper: the final token store is either untouched, or (when the send
returned responses and the batch commit succeeded) the original store
filtered by the queued deletions. -/
lemma dispatch_store_cases (docs : List TokenDoc) (n : Notification)
    (notificationId : String) (sendOutcome : Option (List SendResponse))
    (commitOk : Bool) :
    (dispatch docs n notificationId sendOutcome commitOk).store = docs ∨
    ∃ rs, sendOutcome = some rs ∧ commitOk = true ∧
      (dispatch docs n notificationId sendOutcome commitOk).store
        = docs.filter fun d =>
            !((tokensToDelete (docs.map TokenDoc.token) rs).contains d.token) := by
  rcases docs with _ | ⟨d, ds⟩
  · left; rfl
  · rcases sendOutcome with _ | rs
    · left; rfl
    · by_cases h :
        tokensToDelete (d.token :: ds.map TokenDoc.token) rs = []
      · left; simp [dispatch, h]
      · rcases commitOk with _ | _
        · left; simp [dispatch, h]
        · right; exact ⟨rs, rfl, rfl, by simp [dispatch, h]⟩

/-- Helper: no code path of the dispatcher lets an exception escape to the
caller; the whole send-and-prune block is wrapped in one `try`/`catch`. -/
lemma dispatch_callerFailure_false (docs : List TokenDoc) (n : Notification)
    (notificationId : String) (sendOutcome : Option (List SendResponse))
    (commitOk : Bool) :
    (dispatch docs n notificationId sendOutcome commitOk).callerFailure
      = false := by
  rcases docs with _ | ⟨d, ds⟩
  · rfl
  · rcases sendOutcome with _ | rs
    · rfl
    · by_cases h :
        tokensToDelete (d.token :: ds.map TokenDoc.token) rs = []
      · simp [dispatch, h]
      · rcases commitOk with _ | _ <;> simp [dispatch, h]

/-- C4 counterexample: at a concrete dispatch whose multicast send fails
(the transport call rejects), the failure is not surfaced to the caller —
the `catch` at lines 252-254 only logs, and the function completes
normally. -/
theorem send_failure_not_surfaced :
    (dispatch docsAB recA "n1" none true).sendCalls = 1 ∧
    (dispatch docsAB recA "n1" none true).callerFailure = false ∧
    ¬ ((dispatch docsAB recA "n1" none true).callerFailure = true) := by
  decide

/-- C4 amended: a failure of the multicast send does abort the dispatch —
no delete call is issued and the store is untouched — but it is absorbed
by the same `catch` that absorbs pruning failures: on no path is a failure
surfaced to the caller, and a failed batch commit likewise leaves the
store unchanged without failing the dispatch. -/
theorem dispatch_absorbs_send_and_prune_failures (docs : List TokenDoc)
    (n : Notification) (notificationId : String)
    (sendOutcome : Option (List SendResponse)) (commitOk : Bool) :
    (dispatch docs n notificationId sendOutcome commitOk).callerFailure
      = false ∧
    (dispatch docs n notificationId none commitOk).deleteCalls = 0 ∧
    (dispatch docs n notificationId none commitOk).store = docs ∧
    ∀ rs, (dispatch docs n notificationId (some rs) false).store = docs := by
  refine ⟨dispatch_callerFailure_false docs n notificationId sendOutcome
      commitOk, ?_, ?_, ?_⟩
  · rcases docs with _ | ⟨d, ds⟩ <;> rfl
  · rcases docs with _ | ⟨d, ds⟩ <;> rfl
  · intro rs
    rcases dispatch_store_cases docs n notificationId (some rs) false with
      h | ⟨rs', _, hok, _⟩
    · exact h
    · exact absurd hok (by decide)

/-- Scenario B responses: `tA` success, `tB` failure with a non-permanent
transport error code. -/
def rsB : List SendResponse :=
  [{ success := true, errorCode := none },
   { success := false, errorCode := some "messaging/internal-error" }]

/-- Helper: a token queued for deletion came from a positional response
that failed with an error object carrying one of the two permanent
codes. -/
lemma of_mem_tokensToDelete {tokens : List String} {rs : List SendResponse}
    {t : String} (h : t ∈ tokensToDelete tokens rs) :
    ∃ r, (t, r) ∈ tokens.zip rs ∧ r.success = false ∧
      ∃ c, r.errorCode = some c ∧ isPermanentTokenError c = true := by
  rw [tokensToDelete, List.mem_filterMap] at h
  obtain ⟨⟨t', r'⟩, htr, heq⟩ := h
  dsimp only at heq
  split at heq
  · rename_i hsucc
    split at heq
    · rename_i c hcode
      split at heq
      · rename_i hperm
        cases Option.some.inj heq
        exact ⟨r', htr, hsucc, c, hcode, hperm⟩
      · exact Option.noConfusion heq
    · exact Option.noConfusion heq
  · exact Option.noConfusion heq

/-- C5: fail-open pruning.  A token whose positional response failed with
an error code outside the two enumerated permanent codes (or with no error
object at all) is never queued for deletion, and its document survives the
dispatch in the registration store.  The token lists are nodup, per the
data-model invariant that a token is unique within a user's registration
set. -/
theorem fail_open_pruning (docs : List TokenDoc) (n : Notification)
    (notificationId : String) (rs : List SendResponse) (commitOk : Bool)
    (d : TokenDoc) (r : SendResponse)
    (hnodup : (docs.map TokenDoc.token).Nodup)
    (hd : d ∈ docs)
    (hzip : (d.token, r) ∈ (docs.map TokenDoc.token).zip rs)
    (hnp : ∀ c, r.errorCode = some c → isPermanentTokenError c = false) :
    d.token ∉ tokensToDelete (docs.map TokenDoc.token) rs ∧
    d ∈ (dispatch docs n notificationId (some rs) commitOk).store := by
  have hnotmem : d.token ∉ tokensToDelete (docs.map TokenDoc.token) rs := by
    intro hmem
    obtain ⟨r', htr, _, c, hcode, hperm⟩ := of_mem_tokensToDelete hmem
    have hr' : r' = r := snd_eq_of_mem_zip_of_nodup hnodup htr hzip
    subst hr'
    rw [hnp c hcode] at hperm
    exact Bool.noConfusion hperm
  refine ⟨hnotmem, ?_⟩
  rcases dispatch_store_cases docs n notificationId (some rs) commitOk with
    h | ⟨rs', hso, _, h⟩
  · rw [h]; exact hd
  · cases Option.some.inj hso
    rw [h]
    exact List.mem_filter.mpr ⟨hd, by simp [hnotmem]⟩

/-- C5 witness: Scenario B at a concrete store `["tA","tB"]`, where `tB`
fails with the non-permanent code `messaging/internal-error`: `tB` is not
queued for deletion and its document survives the dispatch. -/
theorem fail_open_pruning_witness :
    "tB" ∉ tokensToDelete (docsAB.map TokenDoc.token) rsB ∧
    ({ docId := "d2", token := "tB" } : TokenDoc)
      ∈ (dispatch docsAB recA "n1" (some rsB) true).store :=
  fail_open_pruning docsAB recA "n1" rsB true
    { docId := "d2", token := "tB" }
    { success := false, errorCode := some "messaging/internal-error" }
    (by decide) (by decide) (by decide)
    (fun c hc => by rw [← Option.some.inj hc]; decide)

/-- C7: whenever the token set is non-empty, exactly one multicast send is
issued, and the message handed to the transport carries exactly the token
list produced by the registration lookup, in lookup order (line 182 maps
the query documents to tokens, line 198 places that very list in the
message). -/
theorem multicast_carries_exact_token_list (docs : List TokenDoc)
    (n : Notification) (notificationId : String)
    (sendOutcome : Option (List SendResponse)) (commitOk : Bool)
    (hne : docs ≠ []) :
    (dispatch docs n notificationId sendOutcome commitOk).sendCalls = 1 ∧
    (dispatch docs n notificationId sendOutcome commitOk).message.map
        MulticastMessage.tokens
      = some (docs.map TokenDoc.token) := by
  rcases docs with _ | ⟨d, ds⟩
  · exact absurd rfl hne
  · rcases sendOutcome with _ | rs
    · exact ⟨rfl, rfl⟩
    · by_cases h : tokensToDelete (d.token :: ds.map TokenDoc.token) rs = []
      · exact ⟨by simp [dispatch, h], by simp [dispatch, h]⟩
      · rcases commitOk with _ | _ <;>
          exact ⟨by simp [dispatch, h], by simp [dispatch, h]⟩

/-- C7 witness: at the Scenario A store and responses, the dispatch issues
one send whose message carries exactly `["tA","tB"]`. -/
theorem multicast_carries_exact_token_list_witness :
    (dispatch docsAB recA "n1" (some rsA_prefixed) true).sendCalls = 1 ∧
    (dispatch docsAB recA "n1" (some rsA_prefixed) true).message.map
        MulticastMessage.tokens
      = some ["tA", "tB"] :=
  multicast_carries_exact_token_list docsAB recA "n1" (some rsA_prefixed)
    true (by decide)

/-- C8: batched pruning.  When the queued-deletion set is non-empty,
exactly one batch commit is issued, and the store either loses exactly the
documents whose token is queued (commit succeeded) or is left entirely
unchanged (commit failed) — all-or-nothing; when it is empty, no delete
call is issued and the store is unchanged. -/
theorem batched_prune_single_delete (docs : List TokenDoc)
    (n : Notification) (notificationId : String) (rs : List SendResponse)
    (commitOk : Bool) :
    (tokensToDelete (docs.map TokenDoc.token) rs ≠ [] →
      (dispatch docs n notificationId (some rs) commitOk).deleteCalls = 1 ∧
      ((dispatch docs n notificationId (some rs) commitOk).store
          = docs.filter (fun d =>
              !((tokensToDelete (docs.map TokenDoc.token) rs).contains
                  d.token)) ∨
        (dispatch docs n notificationId (some rs) commitOk).store = docs)) ∧
    (tokensToDelete (docs.map TokenDoc.token) rs = [] →
      (dispatch docs n notificationId (some rs) commitOk).deleteCalls = 0 ∧
      (dispatch docs n notificationId (some rs) commitOk).store = docs) := by
  rcases docs with _ | ⟨d, ds⟩
  · exact ⟨fun hne => absurd rfl hne, fun _ => ⟨rfl, rfl⟩⟩
  · by_cases h : tokensToDelete (d.token :: ds.map TokenDoc.token) rs = []
    · refine ⟨fun hne => absurd h hne, fun _ => ?_⟩
      exact ⟨by simp [dispatch, h], by simp [dispatch, h]⟩
    · refine ⟨fun _ => ?_, fun h0 => absurd h0 h⟩
      rcases commitOk with _ | _
      · exact ⟨by simp [dispatch, h], Or.inr (by simp [dispatch, h])⟩
      · refine ⟨by simp [dispatch, h], Or.inl ?_⟩
        simp [dispatch, h]

/-- C8 witness: at the Scenario A store and responses the queued set is
`["tB"]`, one batch commit is issued, and the store is the original
filtered by the queued set (or unchanged, had the commit failed). -/
theorem batched_prune_single_delete_witness :
    (dispatch docsAB recA "n1" (some rsA_prefixed) true).deleteCalls = 1 ∧
    ((dispatch docsAB recA "n1" (some rsA_prefixed) true).store
        = docsAB.filter (fun d =>
            !((tokensToDelete (docsAB.map TokenDoc.token)
                rsA_prefixed).contains d.token)) ∨
      (dispatch docsAB recA "n1" (some rsA_prefixed) true).store = docsAB) :=
  (batched_prune_single_delete docsAB recA "n1" rsA_prefixed true).1
    (by decide)

/-- C9: frame property.  The dispatcher leaves the notification record
unchanged (in particular its `status` field), the final store is a
sublist of the loaded one (nothing is added, reordered, or updated in
place), and any document that disappears lost its place only because its
token was queued for deletion by the permanent-error classification. -/
theorem dispatch_frame (docs : List TokenDoc) (n : Notification)
    (notificationId : String) (sendOutcome : Option (List SendResponse))
    (commitOk : Bool) :
    (dispatch docs n notificationId sendOutcome commitOk).record = n ∧
    (dispatch docs n notificationId sendOutcome commitOk).store.Sublist
      docs ∧
    ∀ d, d ∈ docs →
      d ∉ (dispatch docs n notificationId sendOutcome commitOk).store →
      ∃ rs, sendOutcome = some rs ∧
        d.token ∈ tokensToDelete (docs.map TokenDoc.token) rs := by
  refine ⟨?_, ?_, ?_⟩
  · rcases docs with _ | ⟨d, ds⟩
    · rfl
    · rcases sendOutcome with _ | rs
      · rfl
      · by_cases h : tokensToDelete (d.token :: ds.map TokenDoc.token) rs = []
        · simp [dispatch, h]
        · rcases commitOk with _ | _ <;> simp [dispatch, h]
  · rcases dispatch_store_cases docs n notificationId sendOutcome commitOk
      with h | ⟨rs, _, _, h⟩
    · rw [h]
    · rw [h]; exact List.filter_sublist _
  · intro d hd hns
    rcases dispatch_store_cases docs n notificationId sendOutcome commitOk
      with h | ⟨rs, hso, _, h⟩
    · rw [h] at hns; exact absurd hd hns
    · rw [h] at hns
      refine ⟨rs, hso, ?_⟩
      by_contra hcon
      exact hns (List.mem_filter.mpr ⟨hd, by simp [hcon]⟩)

/-- C9 witness: at the Scenario A store and responses the record comes out
unchanged, the final store is a sublist of the original, and the
document of `tB`, which is gone afterwards, had its token queued for
deletion. -/
theorem dispatch_frame_witness :
    (dispatch docsAB recA "n1" (some rsA_prefixed) true).record = recA ∧
    (dispatch docsAB recA "n1" (some rsA_prefixed) true).store.Sublist
      docsAB ∧
    ∃ rs, (some rsA_prefixed : Option (List SendResponse)) = some rs ∧
      "tB" ∈ tokensToDelete (docsAB.map TokenDoc.token) rs := by
  have h := dispatch_frame docsAB recA "n1" (some rsA_prefixed) true
  exact ⟨h.1, h.2.1,
    h.2.2 { docId := "d2", token := "tB" } (by decide) (by decide)⟩

/-- C10: the LIKE producer falls back to `"Alguien"` only when the liker's
user document does not exist; when the document exists, `args[0]` is
exactly its `fullName` field, even when that field is absent (the stored
value is then the undefined value, not `"Alguien"`).  The COMMENT producer
instead falls back to `"Alguien"` whenever `author.fullName` is absent. -/
theorem producer_actor_name_fallbacks :
    (∀ (d : UserDoc) (blogTitle : Option String),
      (createLikeArgs (some d) blogTitle).head? = some d.fullName) ∧
    (∀ blogTitle : Option String,
      (createLikeArgs none blogTitle).head? = some (some "Alguien")) ∧
    (∀ blogTitle : Option String,
      (createLikeArgs (some { fullName := none }) blogTitle).head? = some none) ∧
    (∀ (fullName text : Option String),
      (createCommentArgs fullName text).head?
        = some (some (fullName.getD "Alguien"))) := by
  exact ⟨fun d _ => rfl, fun _ => rfl, fun _ => rfl, fun _ _ => rfl⟩

end CloudFunctions
